import Mathlib

/-!
Verification of the chat client core in `src/YewChat/src/components/chat.rs`.

Shallow embedding: the `Chat` component state and its `update` handler are
translated into Lean functions. The two `serde_json::from_str` call sites
(the outer envelope and the inner `{from, message}` payload) are external
library calls; they are modelled as explicit parser parameters
`parseEnvelope : String → Option WebSocketMessage` and
`parseMessageData : String → Option MessageData`, where `none` stands for a
serde decode error. A Rust `unwrap()` on a failed parse or an absent field
is a panic; panics are modelled by the `Crash` error of an `Except` result.
Outbound traffic (the frames handed to `wss.tx.try_send`) is returned as an
explicit list of frames.
-/

namespace YewChat

/-- Panic marker: the result of a failed `unwrap()` in the Rust source. -/
inductive Crash where
  | crashed
deriving DecidableEq, Repr

/-- `struct MessageData { from, message }` (chat.rs lines 14-18). -/
structure MessageData where
  «from» : String
  message : String
deriving DecidableEq, Repr

/-- `enum MsgTypes { Users, Register, Message }` (chat.rs lines 20-26). -/
inductive MsgTypes where
  | Users
  | Register
  | Message
deriving DecidableEq, Repr

/-- `struct WebSocketMessage { message_type, data_array, data }`
(chat.rs lines 28-34). -/
structure WebSocketMessage where
  messageType : MsgTypes
  dataArray : Option (List String)
  data : Option String
deriving DecidableEq, Repr

/-- `struct UserProfile { name, avatar }` (chat.rs lines 36-40). -/
structure UserProfile where
  name : String
  avatar : String
deriving DecidableEq, Repr

/-- The mutable fields of `struct Chat` (chat.rs lines 42-48): the roster
`users`, the history `messages`, and the chat input element, modelled as
the optional current text of the `HtmlInputElement` the `NodeRef` casts to
(`none` when the cast fails). -/
structure Chat where
  users : List UserProfile
  messages : List MessageData
  chatInput : Option String
deriving DecidableEq, Repr

/-- The component messages `enum Msg` (chat.rs lines 9-12). -/
inductive Msg where
  | HandleMsg (s : String)
  | SubmitMessage
deriving DecidableEq, Repr

/-- The avatar URL format string used at chat.rs lines 95-99 and line 215:
`format!("https://avatars.dicebear.com/api/adventurer-neutral/{}.svg", u)`. -/
def avatarUrl (name : String) : String :=
  "https://avatars.dicebear.com/api/adventurer-neutral/" ++ name ++ ".svg"

/-- The dispatch on `msg.message_type` inside `Msg::HandleMsg`
(chat.rs lines 88-113), after the outer envelope has parsed.
`Users`: `msg.data_array.unwrap_or_default()` then roster replacement;
`Message`: `msg.data.unwrap()` (panic when absent) then
`serde_json::from_str(...).unwrap()` (panic on parse failure) then
`self.messages.push`; the wildcard arm (`Register` is the only remaining
variant) returns `false`. -/
def handleEnvelope (parseMessageData : String → Option MessageData)
    (st : Chat) (msg : WebSocketMessage) : Except Crash (Chat × Bool) :=
  match msg.messageType with
  | .Users =>
      let users_from_message := msg.dataArray.getD []
      .ok ({ st with
              users := users_from_message.map fun u =>
                { name := u, avatar := avatarUrl u } }, true)
  | .Message =>
      match msg.data with
      | none => .error .crashed
      | some d =>
          match parseMessageData d with
          | none => .error .crashed
          | some message_data =>
              .ok ({ st with messages := st.messages ++ [message_data] }, true)
  | .Register => .ok (st, false)

/-- `Chat::update` (chat.rs lines 84-135). The returned triple is the new
state, the `bool` the method returns (the re-render flag), and the list of
frames handed to `wss.tx.try_send`. `Msg::HandleMsg` first parses the
envelope with `serde_json::from_str(&s).unwrap()` — a panic on failure —
then dispatches; `Msg::SubmitMessage` reads the input element, and when it
is present builds a `Message` frame carrying the raw `input.value()`,
sends it, and clears the input with `set_value("")`, returning `false`. -/
def update (parseEnvelope : String → Option WebSocketMessage)
    (parseMessageData : String → Option MessageData)
    (st : Chat) : Msg → Except Crash (Chat × Bool × List WebSocketMessage)
  | .HandleMsg s =>
      match parseEnvelope s with
      | none => .error .crashed
      | some msg =>
          match handleEnvelope parseMessageData st msg with
          | .error e => .error e
          | .ok (st2, b) => .ok (st2, b, [])
  | .SubmitMessage =>
      match st.chatInput with
      | some v =>
          let message : WebSocketMessage :=
            { messageType := .Message, data := some v, dataArray := none }
          .ok ({ st with chatInput := some "" }, false, [message])
      | none => .ok (st, false, [])

/-- Folding `update`/`handleEnvelope` over a list of already-parsed inbound
envelopes, propagating a panic. -/
def processFrames (parseMessageData : String → Option MessageData)
    (st : Chat) : List WebSocketMessage → Except Crash Chat
  | [] => .ok st
  | f :: fs =>
      match handleEnvelope parseMessageData st f with
      | .error e => .error e
      | .ok (st2, _) => processFrames parseMessageData st2 fs

/-- The sender-profile resolution in `Chat::view` (chat.rs lines 212-217):
`self.users.iter().find(|u| u.name == m.from).unwrap_or(&binding)` with
`binding = UserProfile { name: m.from, avatar: avatarUrl(m.from) }`. -/
def resolveProfile (users : List UserProfile) (sender : String) : UserProfile :=
  match users.find? (fun u => u.name == sender) with
  | some u => u
  | none => { name := sender, avatar := avatarUrl sender }

/-- The body-rendering choice in `Chat::view`. -/
inductive RenderedBody where
  | image (src : String)
  | text (content : String)
deriving DecidableEq, Repr

/-- The rendering branch at chat.rs lines 249-262:
`if m.message.ends_with(".gif")` the body is rendered as an `<img>` with
the body as `src`, otherwise as plain text. -/
def renderBody (m : MessageData) : RenderedBody :=
  if m.message.endsWith ".gif" then .image m.message else .text m.message

/-- Modelled from the spec (§6), for comparison with the source in C2: the
JSON encoding of the inner payload, a json string of
`{"from": string, "message": string}`. -/
def jsonEncodeInner (f m : String) : String :=
  "\x7b\"from\":\"" ++ f ++ "\",\"message\":\"" ++ m ++ "\"\x7d"

/-- A parser standing for a serde call that fails (malformed input). -/
def noEnvelope : String → Option WebSocketMessage := fun _ => none

/-- An inner-payload parser standing for a serde call that fails. -/
def noInner : String → Option MessageData := fun _ => none

/-- A concrete inner-payload parser used in witnesses: a serde decoder that
succeeds exactly on three specific `{from, message}` JSON payloads. -/
def innerTable : String → Option MessageData := fun s =>
  if s = jsonEncodeInner "alice" "hello" then some ⟨"alice", "hello"⟩
  else if s = jsonEncodeInner "bob" "cat.gif" then some ⟨"bob", "cat.gif"⟩
  else if s = jsonEncodeInner "alice" "bye" then some ⟨"alice", "bye"⟩
  else none

/-- The inner payload a frame contributes to the history: `some md` when the
frame is `Message`-tagged and its `data` decodes to `md`, `none` otherwise. -/
def decodeMessage (pm : String → Option MessageData)
    (f : WebSocketMessage) : Option MessageData :=
  if f.messageType = .Message then f.data.bind pm else none

/-- C1 counterexample: the claim that a malformed inbound string leaves the
handler alive with unchanged state and one ProtocolError report is false —
`serde_json::from_str(&s).unwrap()` at chat.rs line 87 panics on a
non-parseable envelope, modelled as the `Crash` error. -/
theorem C1_counterexample :
    update noEnvelope noInner ⟨[], [], none⟩ (.HandleMsg "not json") =
      .error .crashed :=
  rfl

/-- C1 (amended): a string malformed at either decoding stage — a
non-parseable envelope, or a `Message` frame whose `data` is absent or whose
inner payload fails to parse — makes the handler panic (the `unwrap` fails);
no state is mutated before the panic and no ProtocolError report exists. -/
theorem C1_malformed_input_panics
    (pe : String → Option WebSocketMessage)
    (pm : String → Option MessageData) (st : Chat) (s : String) :
    (pe s = none → update pe pm st (.HandleMsg s) = .error .crashed) ∧
    (∀ msg, pe s = some msg → msg.messageType = .Message → msg.data = none →
      update pe pm st (.HandleMsg s) = .error .crashed) ∧
    (∀ msg d, pe s = some msg → msg.messageType = .Message →
      msg.data = some d → pm d = none →
      update pe pm st (.HandleMsg s) = .error .crashed) := by
  refine ⟨fun h => ?_, fun msg h hm hd => ?_, fun msg d h hm hd hpm => ?_⟩
  · simp [update, h]
  · simp [update, h, handleEnvelope, hm, hd]
  · simp [update, h, handleEnvelope, hm, hd, hpm]

/-- C1 witness: the three panic stages at concrete inputs. -/
theorem C1_malformed_input_panics_witness :
    update noEnvelope noInner ⟨[], [], none⟩ (.HandleMsg "garbage") =
      .error .crashed ∧
    update (fun _ => some ⟨.Message, none, none⟩) noInner ⟨[], [], none⟩
      (.HandleMsg "x") = .error .crashed ∧
    update (fun _ => some ⟨.Message, none, some "oops"⟩) noInner ⟨[], [], none⟩
      (.HandleMsg "x") = .error .crashed :=
  ⟨(C1_malformed_input_panics noEnvelope noInner ⟨[], [], none⟩ "garbage").1 rfl,
   (C1_malformed_input_panics (fun _ => some ⟨.Message, none, none⟩) noInner
      ⟨[], [], none⟩ "x").2.1 _ rfl rfl rfl,
   (C1_malformed_input_panics (fun _ => some ⟨.Message, none, some "oops"⟩)
      noInner ⟨[], [], none⟩ "x").2.2 _ _ rfl rfl rfl rfl⟩

/-- C2 counterexample: the outbound frame built by `Msg::SubmitMessage`
carries the raw input text `"hi"` in its `data` field (chat.rs line 120),
which is not the JSON encoding of `{from: "alice", message: "hi"}`. -/
theorem C2_counterexample :
    update noEnvelope noInner ⟨[], [], some "hi"⟩ .SubmitMessage =
      .ok (⟨[], [], some ""⟩, false, [⟨.Message, none, some "hi"⟩]) ∧
    some "hi" ≠ some (jsonEncodeInner "alice" "hi") :=
  ⟨rfl, by decide⟩

/-- C2 (amended): the outbound frame produced by submit has messageType
`message` and dataArray null, but its data field is the raw submitted text
itself, not a JSON encoding of `{from: currentUser, message: text}`. -/
theorem C2_submit_sends_raw_text
    (pe : String → Option WebSocketMessage)
    (pm : String → Option MessageData) (st : Chat) (v : String)
    (h : st.chatInput = some v) :
    update pe pm st .SubmitMessage =
      .ok ({ st with chatInput := some "" }, false,
        [{ messageType := .Message, dataArray := none, data := some v }]) := by
  simp [update, h]

/-- C2 witness: submitting the text `"hello"`. -/
theorem C2_submit_sends_raw_text_witness :
    update noEnvelope noInner ⟨[], [], some "hello"⟩ .SubmitMessage =
      .ok (⟨[], [], some ""⟩, false, [⟨.Message, none, some "hello"⟩]) :=
  C2_submit_sends_raw_text noEnvelope noInner ⟨[], [], some "hello"⟩ "hello" rfl

/-- C3: after two consecutive `Users` frames with disjoint name sets the
roster is exactly the second frame's profiles `{name, avatarUrl name}` in
that frame's order, with no entry from the first frame. -/
theorem C3_roster_replace (pm : String → Option MessageData) (st : Chat)
    (names1 names2 : List String) (hdisj : ∀ n ∈ names1, n ∉ names2) :
    ∃ st', processFrames pm st
        [⟨.Users, some names1, none⟩, ⟨.Users, some names2, none⟩] = .ok st' ∧
      st'.users = names2.map (fun n => ⟨n, avatarUrl n⟩) ∧
      ∀ u ∈ st'.users, u.name ∉ names1 := by
  refine ⟨_, rfl, rfl, ?_⟩
  intro u hu
  rcases List.mem_map.mp hu with ⟨n, hn2, rfl⟩
  intro hn1
  exact hdisj n hn1 hn2

/-- C3 witness: `Users ["alice", "bob"]` then `Users ["carol"]`. -/
theorem C3_roster_replace_witness :
    (∀ n ∈ ["alice", "bob"], n ∉ ["carol"]) ∧
    ∃ st', processFrames noInner ⟨[], [], none⟩
        [⟨.Users, some ["alice", "bob"], none⟩,
         ⟨.Users, some ["carol"], none⟩] = .ok st' ∧
      st'.users = ["carol"].map (fun n => ⟨n, avatarUrl n⟩) ∧
      ∀ u ∈ st'.users, u.name ∉ ["alice", "bob"] :=
  ⟨by decide,
   C3_roster_replace noInner ⟨[], [], none⟩ ["alice", "bob"] ["carol"] (by decide)⟩

/-- Folding well-formed `Users`/`Message` envelopes over a state succeeds
and appends exactly the decoded `Message` payloads, in order, to the
history; the chat input is untouched. -/
theorem processFrames_messages_append (pm : String → Option MessageData) :
    ∀ (fs : List WebSocketMessage) (st : Chat),
    (∀ f ∈ fs, f.messageType = .Users ∨ f.messageType = .Message) →
    (∀ f ∈ fs, f.messageType = .Message → (f.data.bind pm).isSome) →
    ∃ st', processFrames pm st fs = .ok st' ∧
      st'.messages = st.messages ++ fs.filterMap (decodeMessage pm) ∧
      st'.chatInput = st.chatInput := by
  intro fs
  induction fs with
  | nil => exact fun st _ _ => ⟨st, rfl, by simp, rfl⟩
  | cons f fs ih =>
    intro st htag hdec
    obtain ⟨mt, da, d0⟩ := f
    rcases htag _ (List.mem_cons_self _ _) with hU | hM
    · cases hU
      obtain ⟨st', h1, h2, h3⟩ :=
        ih { st with users := (da.getD []).map fun u =>
              { name := u, avatar := avatarUrl u } }
          (fun g hg => htag g (List.mem_cons_of_mem _ hg))
          (fun g hg => hdec g (List.mem_cons_of_mem _ hg))
      refine ⟨st', ?_, ?_, h3⟩
      · simpa [processFrames, handleEnvelope] using h1
      · simpa [decodeMessage, List.filterMap_cons] using h2
    · cases hM
      have hsome := hdec _ (List.mem_cons_self _ _) rfl
      match hd : d0 with
      | none => simp [hd] at hsome
      | some dv =>
        match hpm : pm dv with
        | none => simp [hpm] at hsome
        | some md =>
          obtain ⟨st', h1, h2, h3⟩ :=
            ih { st with messages := st.messages ++ [md] }
              (fun g hg => htag g (List.mem_cons_of_mem _ hg))
              (fun g hg => hdec g (List.mem_cons_of_mem _ hg))
          refine ⟨st', ?_, ?_, h3⟩
          · simpa [processFrames, handleEnvelope, hpm] using h1
          · simpa [decodeMessage, List.filterMap_cons, hpm,
              List.append_assoc] using h2

/-- C4: feeding well-formed frames whose `Message` payloads decode, in
order, to `m1, m2, m3` — arbitrarily interleaved with `Users` frames —
leaves the history equal to exactly `[m1, m2, m3]`: message handling only
appends, never reorders, deduplicates or removes. -/
theorem C4_history_append_only (pm : String → Option MessageData)
    (users0 : List UserProfile) (ci : Option String)
    (fs : List WebSocketMessage) (m1 m2 m3 : MessageData)
    (htag : ∀ f ∈ fs, f.messageType = .Users ∨ f.messageType = .Message)
    (hok : ∀ f ∈ fs, f.messageType = .Message → (f.data.bind pm).isSome)
    (hmsgs : fs.filterMap (decodeMessage pm) = [m1, m2, m3]) :
    ∃ st', processFrames pm ⟨users0, [], ci⟩ fs = .ok st' ∧
      st'.messages = [m1, m2, m3] := by
  obtain ⟨st', h1, h2, _⟩ :=
    processFrames_messages_append pm fs ⟨users0, [], ci⟩ htag hok
  exact ⟨st', h1, by simpa [hmsgs] using h2⟩

/-- C4 witness: three message frames interleaved with two roster frames. -/
theorem C4_history_append_only_witness :
    ∃ st', processFrames innerTable ⟨[], [], none⟩
        [⟨.Users, some ["alice"], none⟩,
         ⟨.Message, none, some (jsonEncodeInner "alice" "hello")⟩,
         ⟨.Users, some ["alice", "bob"], none⟩,
         ⟨.Message, none, some (jsonEncodeInner "bob" "cat.gif")⟩,
         ⟨.Message, none, some (jsonEncodeInner "alice" "bye")⟩] = .ok st' ∧
      st'.messages =
        [⟨"alice", "hello"⟩, ⟨"bob", "cat.gif"⟩, ⟨"alice", "bye"⟩] :=
  C4_history_append_only innerTable [] none _ _ _ _
    (by decide) (by decide) (by decide)

/-- C5 counterexample: before any roster snapshot has arrived (fresh state,
empty roster and history), submit still produces an outbound frame — there
is no send gating in `Msg::SubmitMessage` (chat.rs lines 115-134). -/
theorem C5_counterexample :
    update noEnvelope noInner ⟨[], [], some "hey"⟩ .SubmitMessage =
      .ok (⟨[], [], some ""⟩, false, [⟨.Message, none, some "hey"⟩]) ∧
    ([⟨.Message, none, some "hey"⟩] : List WebSocketMessage) ≠ [] :=
  ⟨rfl, by decide⟩

/-- C5 (amended): submit is not gated on any session state: it never
mutates the roster or the history, and it produces exactly one outbound
frame whenever the input element is present — regardless of whether a
roster snapshot has been received — and none when it is absent. -/
theorem C5_submit_ungated (pe : String → Option WebSocketMessage)
    (pm : String → Option MessageData) (st : Chat) :
    ∃ st' out, update pe pm st .SubmitMessage = .ok (st', false, out) ∧
      st'.messages = st.messages ∧ st'.users = st.users ∧
      (st.chatInput = none → out = []) ∧
      (∀ v, st.chatInput = some v →
        out = [{ messageType := .Message, dataArray := none,
                 data := some v }]) := by
  cases hci : st.chatInput with
  | none =>
      exact ⟨st, [], by simp [update, hci], rfl, rfl, fun _ => rfl,
        fun v hv => Option.noConfusion hv⟩
  | some v =>
      refine ⟨{ st with chatInput := some "" },
        [{ messageType := .Message, dataArray := none, data := some v }],
        by simp [update, hci], rfl, rfl, fun hn => Option.noConfusion hn,
        fun w hw => ?_⟩
      cases hw
      rfl

/-- C5 witness: the ungated submit at a fresh pre-roster state. -/
theorem C5_submit_ungated_witness :
    ∃ st' out, update noEnvelope noInner ⟨[], [], some "hey"⟩ .SubmitMessage =
        .ok (st', false, out) ∧
      st'.messages = ([] : List MessageData) ∧
      st'.users = ([] : List UserProfile) ∧
      ((⟨[], [], some "hey"⟩ : Chat).chatInput = none → out = []) ∧
      (∀ v, (⟨[], [], some "hey"⟩ : Chat).chatInput = some v →
        out = [{ messageType := .Message, dataArray := none,
                 data := some v }]) :=
  C5_submit_ungated noEnvelope noInner ⟨[], [], some "hey"⟩

/-- C6 counterexample: a `users` frame with absent `dataArray` is not
dropped with a decode error — `unwrap_or_default()` at chat.rs line 90
coerces it to the empty list and the nonempty roster is replaced by `[]`. -/
theorem C6_counterexample :
    handleEnvelope noInner ⟨[⟨"alice", avatarUrl "alice"⟩], [], none⟩
      ⟨.Users, none, none⟩ = .ok (⟨[], [], none⟩, true) :=
  rfl

/-- C6 (amended): a `users` frame whose `dataArray` is absent is silently
coerced to the default empty name list: the roster is replaced by the empty
roster and the frame is processed normally, with no decode error. -/
theorem C6_users_nil_coerced (pm : String → Option MessageData) (st : Chat)
    (d : Option String) :
    handleEnvelope pm st ⟨.Users, none, d⟩ =
      .ok ({ st with users := [] }, true) :=
  rfl

/-- C7 counterexample: the `Users` frame `["bob", "bob"]` leaves two roster
entries named `"bob"` — names are not unique within the snapshot. -/
theorem C7_counterexample :
    handleEnvelope noInner ⟨[], [], none⟩ ⟨.Users, some ["bob", "bob"], none⟩ =
      .ok (⟨[⟨"bob", avatarUrl "bob"⟩, ⟨"bob", avatarUrl "bob"⟩], [], none⟩,
        true) ∧
    (([⟨"bob", avatarUrl "bob"⟩, ⟨"bob", avatarUrl "bob"⟩] :
        List UserProfile).filter (fun u => u.name == "bob")).length = 2 :=
  ⟨rfl, by decide⟩

/-- C7 (amended): after a `Users` frame the roster is exactly one
UserProfile per element of the frame's name list, in order — duplicates in
the name list are preserved, so the roster names equal the name list. -/
theorem C7_roster_preserves_duplicates (pm : String → Option MessageData)
    (st : Chat) (names : List String) (d : Option String) :
    ∃ st', handleEnvelope pm st ⟨.Users, some names, d⟩ = .ok (st', true) ∧
      st'.users = names.map (fun n => ⟨n, avatarUrl n⟩) ∧
      st'.users.map (fun u => u.name) = names := by
  refine ⟨_, rfl, rfl, ?_⟩
  simp [List.map_map]
  exact List.map_id names

/-- C8: a stored message whose sender is absent from the roster resolves to
the fallback profile `{name: sender, avatar: avatarUrl sender}` — the
`unwrap_or(&binding)` at chat.rs line 217 — and resolution is total, so it
never fails. -/
theorem C8_fallback_profile (users : List UserProfile) (sender : String)
    (h : ∀ u ∈ users, u.name ≠ sender) :
    resolveProfile users sender = ⟨sender, avatarUrl sender⟩ := by
  unfold resolveProfile
  have hnone : users.find? (fun u => u.name == sender) = none := by
    rw [List.find?_eq_none]
    intro u hu
    simp [h u hu]
  rw [hnone]

/-- C8 witness: `"carol"` absent from a roster holding only `"alice"`. -/
theorem C8_fallback_profile_witness :
    (∀ u ∈ [(⟨"alice", avatarUrl "alice"⟩ : UserProfile)],
      u.name ≠ "carol") ∧
    resolveProfile [⟨"alice", avatarUrl "alice"⟩] "carol" =
      ⟨"carol", avatarUrl "carol"⟩ :=
  ⟨by decide, C8_fallback_profile [⟨"alice", avatarUrl "alice"⟩] "carol"
    (by decide)⟩

/-- C9: the body-rendering classification is a pure, stable function of the
message body alone: two messages with equal bodies classify alike, a
message is rendered as an image link exactly when its body ends with
`".gif"`, and as plain text exactly otherwise. -/
theorem C9_gif_classification (m m2 : MessageData)
    (h : m.message = m2.message) :
    renderBody m = renderBody m2 ∧
    (renderBody m = .image m.message ↔ m.message.endsWith ".gif" = true) ∧
    (renderBody m = .text m.message ↔ m.message.endsWith ".gif" = false) := by
  refine ⟨by simp [renderBody, h], ?_, ?_⟩ <;>
    rcases hc : m.message.endsWith ".gif" with _ | _ <;> simp [renderBody, hc]

/-- C9 witness: two senders sharing the body `"cat.gif"`. -/
theorem C9_gif_classification_witness :
    renderBody ⟨"alice", "cat.gif"⟩ = renderBody ⟨"bob", "cat.gif"⟩ ∧
    (renderBody ⟨"alice", "cat.gif"⟩ = .image "cat.gif" ↔
      "cat.gif".endsWith ".gif" = true) ∧
    (renderBody ⟨"alice", "cat.gif"⟩ = .text "cat.gif" ↔
      "cat.gif".endsWith ".gif" = false) :=
  C9_gif_classification ⟨"alice", "cat.gif"⟩ ⟨"bob", "cat.gif"⟩ rfl

/-- C10: each successfully parsed inbound frame mutates at most one state
component: a `Users` frame only replaces the roster (history and input
untouched, re-render `true`), a decodable `Message` frame only appends to
the history (roster and input untouched, re-render `true`), and a
`Register` frame leaves the state exactly as it was and returns `false`. -/
theorem C10_frame_effects (pm : String → Option MessageData) (st : Chat)
    (f : WebSocketMessage) :
    (f.messageType = .Users → ∃ us, handleEnvelope pm st f =
      .ok ({ st with users := us }, true)) ∧
    (∀ d md, f.messageType = .Message → f.data = some d → pm d = some md →
      handleEnvelope pm st f =
        .ok ({ st with messages := st.messages ++ [md] }, true)) ∧
    (f.messageType = .Register → handleEnvelope pm st f = .ok (st, false)) := by
  obtain ⟨mt, da, d0⟩ := f
  refine ⟨fun h => ?_, fun d md hm hd hpm => ?_, fun h => ?_⟩
  · cases h
    exact ⟨_, rfl⟩
  · cases hm
    cases hd
    simp [handleEnvelope, hpm]
  · cases h
    rfl

/-- C10 witness: one frame of each tag at concrete states. -/
theorem C10_frame_effects_witness :
    (∃ us, handleEnvelope innerTable ⟨[], [⟨"alice", "hi"⟩], none⟩
      ⟨.Users, some ["bob"], none⟩ =
        .ok (⟨us, [⟨"alice", "hi"⟩], none⟩, true)) ∧
    handleEnvelope innerTable ⟨[⟨"bob", avatarUrl "bob"⟩], [], none⟩
      ⟨.Message, none, some (jsonEncodeInner "alice" "hello")⟩ =
        .ok (⟨[⟨"bob", avatarUrl "bob"⟩], [⟨"alice", "hello"⟩], none⟩, true) ∧
    handleEnvelope innerTable ⟨[], [], none⟩ ⟨.Register, none, some "alice"⟩ =
      .ok (⟨[], [], none⟩, false) :=
  ⟨(C10_frame_effects innerTable ⟨[], [⟨"alice", "hi"⟩], none⟩
      ⟨.Users, some ["bob"], none⟩).1 rfl,
   (C10_frame_effects innerTable ⟨[⟨"bob", avatarUrl "bob"⟩], [], none⟩
      ⟨.Message, none, some (jsonEncodeInner "alice" "hello")⟩).2.1
      _ _ rfl rfl (by decide),
   (C10_frame_effects innerTable ⟨[], [], none⟩
      ⟨.Register, none, some "alice"⟩).2.2 rfl⟩

end YewChat
